import Mathlib

/-!
Shallow embedding of the paper-search adapter
(`src/academic_platforms/arxiv.py` and `src/server.py`).

The adapter performs remote HTTP requests and parses the responses.  In the
embedding every external effect is an explicit input:

* the HTTP client (`requests.get`) is a function from the query parameters
  (resp. the PDF URL) to an outcome that is either a raised transport error
  or a completed response carrying a status code and a body;
* the feed-parsing library (`feedparser.parse`), which never raises and
  yields an empty entry list on non-feed input, is modelled by `Body`:
  either a parsable feed carrying its entries, or unparsable content;
* the PDF library (`PdfReader` / `extract_text`) is modelled by `PdfBody`:
  either malformed bytes (the reader raises) or a page-ordered list of the
  per-page extraction results;
* Python exceptions are modelled with `Except` / `Option`.
-/

/-- Model of Python `datetime.datetime` values (only construction matters here). -/
structure DateTime where
  year : Nat
  month : Nat
  day : Nat
  hour : Nat
  minute : Nat
  second : Nat
deriving Repr, DecidableEq

/-- Parse exactly four decimal digits (the `%Y` directive). -/
def parse4Digits : List Char → Option (Nat × List Char)
  | a :: b :: c :: d :: rest =>
    if a.isDigit ∧ b.isDigit ∧ c.isDigit ∧ d.isDigit then
      some ((a.toNat - 48) * 1000 + (b.toNat - 48) * 100 + (c.toNat - 48) * 10
            + (d.toNat - 48), rest)
    else none
  | _ => none

/-- Parse one or two decimal digits, greedily (the `%m`, `%d`, `%H`, `%M`, `%S`
directives; range checks are applied by the caller).  Greedy two-digit
matching agrees with CPython's alternation regexes here because in the format
`%Y-%m-%dT%H:%M:%SZ` every directive is followed by a non-digit literal. -/
def parse1or2Digits : List Char → Option (Nat × List Char)
  | a :: b :: rest =>
    if a.isDigit then
      if b.isDigit then some ((a.toNat - 48) * 10 + (b.toNat - 48), rest)
      else some (a.toNat - 48, b :: rest)
    else none
  | [a] => if a.isDigit then some (a.toNat - 48, []) else none
  | [] => none

/-- Consume one expected literal character. -/
def expectChar (c : Char) : List Char → Option (List Char)
  | x :: rest => if x = c then some rest else none
  | [] => none

/-- Days in a month, with the Gregorian leap-year rule, as used by
`datetime`'s day-of-month validation. -/
def daysInMonth (y m : Nat) : Nat :=
  if m = 2 then (if (y % 4 = 0 ∧ y % 100 ≠ 0) ∨ y % 400 = 0 then 29 else 28)
  else if m = 4 ∨ m = 6 ∨ m = 9 ∨ m = 11 then 30 else 31

/-- Three numeric fields separated by `sep`, the first parsed by `first`
(the `%Y-%m-%d` and `%H:%M:%S` halves of the format). -/
def parse3Fields (first : List Char → Option (Nat × List Char)) (sep : Char)
    (cs : List Char) : Option (Nat × Nat × Nat × List Char) :=
  match first cs with
  | none => none
  | some (a, cs) =>
    match expectChar sep cs with
    | none => none
    | some cs =>
      match parse1or2Digits cs with
      | none => none
      | some (b, cs) =>
        match expectChar sep cs with
        | none => none
        | some cs =>
          match parse1or2Digits cs with
          | none => none
          | some (c, cs) => some (a, b, c, cs)

/-- Model of `datetime.strptime(s, '%Y-%m-%dT%H:%M:%SZ')`: `none` models the
`ValueError` raised on a mismatch (including trailing unconverted data, an
out-of-range field, or an invalid day of month — the range checks CPython
performs via its directive regexes and `datetime` construction). -/
def strptimeZ (s : String) : Option DateTime :=
  match parse3Fields parse4Digits '-' s.toList with
  | none => none
  | some (y, m, d, cs) =>
    match expectChar 'T' cs with
    | none => none
    | some cs =>
      match parse3Fields parse1or2Digits ':' cs with
      | none => none
      | some (hh, mi, ss, cs) =>
        match expectChar 'Z' cs with
        | none => none
        | some cs =>
          if cs.isEmpty ∧ 1 ≤ y ∧ (1 ≤ m ∧ m ≤ 12)
              ∧ (1 ≤ d ∧ d ≤ daysInMonth y m)
              ∧ hh ≤ 23 ∧ mi ≤ 59 ∧ ss ≤ 59 then
            some ⟨y, m, d, hh, mi, ss⟩
          else none

/-- Model of Python `s.split('/')` at the character level: split at every
`'/'`, keeping empty segments; `""` yields `[""]` (here `[[]]`). -/
def splitSlash : List Char → List (List Char)
  | [] => [[]]
  | c :: cs =>
    match splitSlash cs with
    | [] => [[]]
    | g :: gs => if c = '/' then [] :: g :: gs else (c :: g) :: gs

/-- Model of `s.split('/')[-1]`: the last `'/'`-separated segment of `s`
(the list produced by `split` is never empty, so indexing `[-1]` is total). -/
def lastSegment (s : String) : String :=
  String.mk ((splitSlash s.toList).getLastD [])

/-- One `links[]` element of a feed entry, carrying `href` and `type`. -/
structure Link where
  href : String
  type : String
deriving Repr, DecidableEq

/-- One entry of the parsed feed, as the adapter accesses it.  Each attribute
whose access can raise `AttributeError` on a malformed entry (`entry.authors`,
`entry.published`, `entry.updated`, `entry.links`, `entry.id`, `entry.title`,
`entry.summary`, `entry.tags`) is an `Option`; `doi` is read with
`entry.get('doi', '')`, which never raises.  `authors` holds the author
names and `tags` the tag terms, in feed order. -/
structure Entry where
  id : Option String := none
  title : Option String := none
  summary : Option String := none
  published : Option String := none
  updated : Option String := none
  authors : Option (List String) := none
  links : Option (List Link) := none
  tags : Option (List String) := none
  doi : Option String := none
deriving Repr, DecidableEq

/-- Modelled from the spec: the `Paper` record class is imported from a
module (`paper`) that is not among the source files; per spec section 3 and
section 4.1 it is a pure value type storing the constructor arguments that
`ArxivSearcher.search` passes at its call site, with no further validation. -/
structure Paper where
  paper_id : String
  title : String
  authors : List String
  abstract : String
  url : String
  pdf_url : String
  published_date : DateTime
  updated_date : DateTime
  source : String
  categories : List String
  keywords : List String
  doi : String
deriving Repr, DecidableEq

/-- The body of the `try:` block in `ArxivSearcher.search`, per feed entry:
evaluates the entry's attributes in source order and builds the `Paper`;
`none` models the branch where any step raised and the `except` clause
logged and skipped the entry. -/
def parseEntry (e : Entry) : Option Paper :=
  e.authors.bind fun authors =>
  (e.published.bind strptimeZ).bind fun published =>
  (e.updated.bind strptimeZ).bind fun updated =>
  e.links.bind fun links =>
  e.id.bind fun id =>
  e.title.bind fun title =>
  e.summary.bind fun summary =>
  e.tags.map fun tags =>
  { paper_id := lastSegment id
    title := title
    authors := authors
    abstract := summary
    url := id
    pdf_url := ((links.find? (fun l => l.type = "application/pdf")).map Link.href).getD ""
    published_date := published
    updated_date := updated
    source := "arxiv"
    categories := tags
    keywords := []
    doi := e.doi.getD "" }

/-- The content of an HTTP response body as seen through `feedparser`:
either a parsable syndication feed with its entry list, or content that is
not a parsable feed (for example an HTML error page). -/
inductive Body where
  | feed : List Entry → Body
  | garbage : Body
deriving Repr, DecidableEq

/-- Model of `feedparser.parse(response.content).entries`: `feedparser`
never raises; non-feed input yields a result with an empty entry list. -/
def feedparserParse : Body → List Entry
  | Body.feed es => es
  | Body.garbage => []

/-- A completed HTTP response: status code and body content. -/
structure HttpResponse where
  status : Nat
  body : Body
deriving Repr, DecidableEq

/-- A transport-level failure message (a raised `requests` exception). -/
def NetError := String
deriving instance Repr, DecidableEq for NetError

/-- The query parameters `ArxivSearcher.search` sends to the remote endpoint. -/
structure QueryParams where
  search_query : String
  max_results : Nat
  sortBy : String
  sortOrder : String
deriving Repr, DecidableEq

namespace ArxivSearcher

/-- The `params` dict built by `ArxivSearcher.search`. -/
def searchParams (query : String) (max_results : Nat) : QueryParams :=
  { search_query := query
    max_results := max_results
    sortBy := "submittedDate"
    sortOrder := "descending" }

/-- `ArxivSearcher.search`: issue the request (`net` models `requests.get`
against `BASE_URL`; `Except.error` models a raised transport exception,
which propagates — there is no `try` around the request and no status-code
check), parse the body with `feedparser`, and fold every entry through the
per-entry `try` block, skipping the ones that raise. -/
def search (query : String) (max_results : Nat)
    (net : QueryParams → Except NetError HttpResponse) :
    Except NetError (List Paper) :=
  match net (searchParams query max_results) with
  | Except.error e => Except.error e
  | Except.ok response =>
    Except.ok ((feedparserParse response.body).filterMap parseEntry)

end ArxivSearcher

/-- Modelled from the spec: `Paper.to_dict` lives in the missing `paper`
module; per spec section 4.1 it is a serialization producing a mapping from
field name to value, used only at the tool-call boundary. -/
def Paper.to_dict (p : Paper) : List (String × String) :=
  [("paper_id", p.paper_id), ("title", p.title),
   ("authors", String.intercalate ", " p.authors),
   ("abstract", p.abstract), ("url", p.url), ("pdf_url", p.pdf_url),
   ("published_date", reprStr p.published_date),
   ("updated_date", reprStr p.updated_date),
   ("source", p.source),
   ("categories", String.intercalate ", " p.categories),
   ("keywords", String.intercalate ", " p.keywords),
   ("doi", p.doi)]

/-- `async_search_arxiv` in `server.py`: calls the adapter's `search` and
serializes each record; an exception from `search` propagates (no `try`). -/
def async_search_arxiv (query : String) (max_results : Nat)
    (net : QueryParams → Except NetError HttpResponse) :
    Except NetError (List (List (String × String))) :=
  match ArxivSearcher.search query max_results net with
  | Except.error e => Except.error e
  | Except.ok papers => Except.ok (papers.map Paper.to_dict)

/-- The `search_arxiv` tool: returns `papers if papers else []` — an empty
result list is replaced by the empty list (a no-op), and no exception is
caught at this boundary. -/
def search_arxiv (query : String) (max_results : Nat)
    (net : QueryParams → Except NetError HttpResponse) :
    Except NetError (List (List (String × String))) :=
  match async_search_arxiv query max_results net with
  | Except.error e => Except.error e
  | Except.ok papers => Except.ok (if papers.isEmpty then [] else papers)

/-- The content of a PDF-endpoint response body as seen through `PdfReader`:
either bytes the reader raises on, or a document whose pages yield the given
page-ordered `extract_text` results (`""` models a page with no text). -/
inductive PdfBody where
  | malformed : PdfBody
  | pdf : List String → PdfBody
deriving Repr, DecidableEq

/-- Outcome of `requests.get` against the PDF endpoint: a raised transport
exception, or a completed response with status code and body bytes. -/
inductive FetchOutcome where
  | netError : String → FetchOutcome
  | response : Nat → PdfBody → FetchOutcome
deriving Repr, DecidableEq

/-- `response.raise_for_status()` raises `HTTPError` exactly for status
codes in `[400, 600)`. -/
def raiseForStatusFails (status : Nat) : Bool :=
  400 ≤ status ∧ status < 600

/-- The page loop of `read_paper`: `text += extracted + "\n"` for each page
whose extraction result is truthy (non-empty). -/
def concatPages (pages : List String) : String :=
  pages.foldl (fun text extracted =>
    if extracted ≠ "" then text ++ extracted ++ "\n" else text) ""

namespace ArxivSearcher

/-- The PDF address `read_paper` builds by string substitution. -/
def pdfUrlFor (paper_id : String) : String :=
  "https://arxiv.org/pdf/" ++ paper_id ++ ".pdf"

/-- `ArxivSearcher.read_paper`: fetch the PDF (`fetch` models `requests.get`
keyed by URL), call `raise_for_status`, parse the bytes with `PdfReader`,
concatenate the per-page extracted texts, and return the stripped result.
The surrounding `try`/`except` turns every raised exception (transport
failure, `HTTPError`, malformed PDF) into the return value `""`, so the
function is total and never raises. -/
def read_paper (paper_id : String) (fetch : String → FetchOutcome) : String :=
  match fetch (pdfUrlFor paper_id) with
  | FetchOutcome.netError _ => ""
  | FetchOutcome.response status body =>
    if raiseForStatusFails status then ""
    else
      match body with
      | PdfBody.malformed => ""
      | PdfBody.pdf pages => (concatPages pages).trim

end ArxivSearcher

/-- The `read_arxiv_paper` tool: calls the adapter's `read_paper` inside a
`try`/`except` that returns `""` on any exception; since the embedded
`read_paper` is total (its own `except` already yields `""`), the boundary
handler is unreachable and the tool returns `read_paper`'s value. -/
def read_arxiv_paper (paper_id : String) (fetch : String → FetchOutcome) : String :=
  ArxivSearcher.read_paper paper_id fetch

/-- `PyError.notImplementedError` models Python's `NotImplementedError`. -/
inductive PyError where
  | notImplementedError : PyError
deriving Repr, DecidableEq

/-- `PaperSource.download_pdf`, the base-class method body:
`raise NotImplementedError`. -/
def PaperSource.download_pdf (paper_id save_path : String) :
    Except PyError String :=
  Except.error PyError.notImplementedError

/-- `ArxivSearcher` does not override `download_pdf`, so attribute lookup
resolves the call to the inherited `PaperSource.download_pdf`. -/
def ArxivSearcher.download_pdf (paper_id save_path : String) :
    Except PyError String :=
  PaperSource.download_pdf paper_id save_path

/-! ### Concrete sample data (used in witnesses and counterexamples) -/

/-- Links of a typical feed entry: an HTML link first, then the PDF link. -/
def sampleLinks : List Link :=
  [⟨"http://arxiv.org/abs/2107.00001v1", "text/html"⟩,
   ⟨"http://arxiv.org/pdf/2107.00001v1", "application/pdf"⟩]

/-- A well-formed feed entry: every attribute the adapter touches is present
and both timestamps match the expected format. -/
def sampleEntry : Entry :=
  { id := some "http://arxiv.org/abs/2107.00001v1"
    title := some "Sample Title"
    summary := some "An abstract."
    published := some "2021-07-01T12:00:00Z"
    updated := some "2021-07-02T08:30:00Z"
    authors := some ["Alice", "Bob"]
    links := some sampleLinks
    tags := some ["cs.LG"]
    doi := none }

/-- A malformed entry: its `published` field does not parse, so the
per-entry `try` block raises `ValueError` and the entry is skipped. -/
def badEntry : Entry := { sampleEntry with published := some "not a date" }

/-- A degenerate but parseable entry whose identifier is the empty string. -/
def emptyIdEntry : Entry := { sampleEntry with id := some "" }

/-! ### Helper lemmas -/

/-- Unfolding `search` on a completed response carrying a parsable feed. -/
theorem search_ok_feed (q : String) (k st : Nat) (es : List Entry) :
    ArxivSearcher.search q k (fun _ => Except.ok ⟨st, Body.feed es⟩)
      = Except.ok (es.filterMap parseEntry) := rfl

/-- Characterization of a successful run of the per-entry `try` block:
every accessed attribute is present, both timestamps parse, and the record
is built exactly from them. -/
theorem parseEntry_eq_some (e : Entry) (p : Paper) :
    parseEntry e = some p ↔
    ∃ authors published updated links id title summary tags,
      e.authors = some authors ∧
      e.published.bind strptimeZ = some published ∧
      e.updated.bind strptimeZ = some updated ∧
      e.links = some links ∧
      e.id = some id ∧
      e.title = some title ∧
      e.summary = some summary ∧
      e.tags = some tags ∧
      p = { paper_id := lastSegment id
            title := title
            authors := authors
            abstract := summary
            url := id
            pdf_url := ((links.find? (fun l => l.type = "application/pdf")).map
                          Link.href).getD ""
            published_date := published
            updated_date := updated
            source := "arxiv"
            categories := tags
            keywords := []
            doi := e.doi.getD "" } := by
  unfold parseEntry
  simp only [Option.bind_eq_some, Option.map_eq_some']
  constructor
  · rintro ⟨a, ha, pb, hpb, ub, hub, l, hl, i, hi, t, ht, s, hs, g, hg, hp⟩
    exact ⟨a, pb, ub, l, i, t, s, g, ha, hpb, hub, hl, hi, ht, hs, hg, hp.symm⟩
  · rintro ⟨a, pb, ub, l, i, t, s, g, ha, hpb, hub, hl, hi, ht, hs, hg, hp⟩
    exact ⟨a, ha, pb, hpb, ub, hub, l, hl, i, hi, t, ht, s, hs, g, hg, hp.symm⟩

/-! ### Claims -/

/-- C10: the Arxiv adapter does not implement the download operation — for
every `paper_id` and `save_path`, calling `download_pdf` on an
`ArxivSearcher` raises `NotImplementedError` from the base class (the
adapter holds no per-call state, so nothing else changes). -/
theorem c10_download_pdf_raises_notImplemented (pid path : String) :
    ArxivSearcher.download_pdf pid path
      = Except.error PyError.notImplementedError := rfl

/-- C9: when the search request completes but its body is not a parsable
feed (for example an error page returned with a non-success status),
`search` returns the empty list without raising — indistinguishable from a
query whose parsable feed has zero entries. -/
theorem c9_unparsable_body_yields_empty_list (q : String) (k st : Nat) :
    ArxivSearcher.search q k (fun _ => Except.ok ⟨st, Body.garbage⟩)
        = Except.ok [] ∧
      search_arxiv q k (fun _ => Except.ok ⟨st, Body.garbage⟩)
        = Except.ok [] ∧
      ArxivSearcher.search q k (fun _ => Except.ok ⟨200, Body.feed []⟩)
        = Except.ok [] :=
  ⟨rfl, rfl, rfl⟩

/-- C1 counterexample: a completed request with non-success HTTP status 500
and an unparsable body does not make `search` raise — `search` performs no
status check, so it returns `Except.ok []` instead of an error.  This
refutes the part of the claim that says a non-success status is raised. -/
theorem c1_counterexample_status_500_returns_ok_nil :
    ArxivSearcher.search "quantum computing" 10
        (fun _ => Except.ok ⟨500, Body.garbage⟩) = Except.ok [] ∧
      search_arxiv "quantum computing" 10
        (fun _ => Except.ok ⟨500, Body.garbage⟩) = Except.ok [] :=
  ⟨rfl, rfl⟩

/-- C1 (amended): if the remote request itself fails at transport level
(a raised network error), `search` propagates the failure and returns no
partial list, and the tool-call boundary `search_arxiv` does not catch or
suppress it; a completed response, whatever its HTTP status, is not an
error for `search` since no status check is performed. -/
theorem c1_transport_failure_propagates (q : String) (k : Nat)
    (msg : NetError) (net : QueryParams → Except NetError HttpResponse)
    (h : net (ArxivSearcher.searchParams q k) = Except.error msg) :
    ArxivSearcher.search q k net = Except.error msg ∧
      search_arxiv q k net = Except.error msg := by
  refine ⟨?_, ?_⟩ <;>
    simp [ArxivSearcher.search, search_arxiv, async_search_arxiv, h]

/-- C1 witness: the amended theorem applied to a concrete connection error. -/
theorem c1_transport_failure_propagates_witness :
    ArxivSearcher.search "quantum computing" 10
        (fun _ => Except.error "connection refused") = Except.error "connection refused" ∧
      search_arxiv "quantum computing" 10
        (fun _ => Except.error "connection refused") = Except.error "connection refused" :=
  c1_transport_failure_propagates "quantum computing" 10 "connection refused"
    (fun _ => Except.error "connection refused") rfl

/-- The page loop accumulates exactly the non-empty extraction results,
each followed by a newline, in page order. -/
theorem concatPages_foldl (pages : List String) (acc : String) :
    pages.foldl (fun text extracted =>
        if extracted ≠ "" then text ++ extracted ++ "\n" else text) acc
      = acc ++ String.join ((pages.filter (fun t => t ≠ "")).map
          (fun t => t ++ "\n")) := by
  induction pages generalizing acc with
  | nil =>
    apply String.ext
    simp [String.data_join]
  | cons p ps ih =>
    by_cases hp : p = ""
    · subst hp
      simp only [List.foldl_cons, ne_eq, not_true_eq_false, if_false,
        List.filter_cons]
      simpa using ih acc
    · simp only [List.foldl_cons, ne_eq, hp, not_false_eq_true, if_true,
        List.filter_cons]
      rw [ih]
      apply String.ext
      simp [String.data_join, String.data_append, hp]

/-- The page loop, stated for the adapter's `concatPages`. -/
theorem concatPages_eq_join (pages : List String) :
    concatPages pages
      = String.join ((pages.filter (fun t => t ≠ "")).map (fun t => t ++ "\n")) := by
  have h := concatPages_foldl pages ""
  unfold concatPages
  rw [h]
  apply String.ext
  simp

/-- C5: on a successful fetch (no transport error, `raise_for_status` does
not raise) of a parsable PDF, `read_paper` returns the page texts in page
order, each non-empty page text followed by a newline, pages yielding no
text contributing nothing, the whole trimmed of leading and trailing
whitespace. -/
theorem c5_read_paper_extracts_pages (pid : String)
    (fetch : String → FetchOutcome) (status : Nat) (pages : List String)
    (hf : fetch (ArxivSearcher.pdfUrlFor pid)
            = FetchOutcome.response status (PdfBody.pdf pages))
    (hs : ¬ (400 ≤ status ∧ status < 600)) :
    ArxivSearcher.read_paper pid fetch
      = (String.join ((pages.filter (fun t => t ≠ "")).map
          (fun t => t ++ "\n"))).trim := by
  unfold ArxivSearcher.read_paper
  rw [hf]
  simp [raiseForStatusFails, hs, concatPages_eq_join]

/-- C5 witness: a two-page PDF with an empty middle page, fetched with
status 200. -/
theorem c5_read_paper_extracts_pages_witness :
    ArxivSearcher.read_paper "2107.00001"
        (fun _ => FetchOutcome.response 200 (PdfBody.pdf ["page one", "", "page two"]))
      = (String.join (((["page one", "", "page two"] : List String).filter
          (fun t => t ≠ "")).map (fun t => t ++ "\n"))).trim :=
  c5_read_paper_extracts_pages "2107.00001"
    (fun _ => FetchOutcome.response 200 (PdfBody.pdf ["page one", "", "page two"]))
    200 ["page one", "", "page two"] rfl (by decide)

/-- C2: for every `paper_id`, if the PDF fetch fails — a raised transport
error, or a completed response whose status makes `raise_for_status` raise
— `read_paper` catches the failure internally and returns `""` instead of
raising, and the `read_arxiv_paper` tool returns `""` as well. -/
theorem c2_read_fetch_failure_returns_empty (pid : String)
    (fetch : String → FetchOutcome)
    (h : (∃ msg, fetch (ArxivSearcher.pdfUrlFor pid) = FetchOutcome.netError msg) ∨
         (∃ status body, fetch (ArxivSearcher.pdfUrlFor pid)
              = FetchOutcome.response status body ∧ 400 ≤ status ∧ status < 600)) :
    ArxivSearcher.read_paper pid fetch = "" ∧ read_arxiv_paper pid fetch = "" := by
  have : ArxivSearcher.read_paper pid fetch = "" := by
    unfold ArxivSearcher.read_paper
    rcases h with ⟨msg, hm⟩ | ⟨status, body, hb, h4, h6⟩
    · rw [hm]
    · rw [hb]
      simp [raiseForStatusFails, h4, h6]
  exact ⟨this, this⟩

/-- C2 witness: a 404 response carrying a perfectly parsable PDF body still
yields `""` from both `read_paper` and `read_arxiv_paper`. -/
theorem c2_read_fetch_failure_returns_empty_witness :
    ArxivSearcher.read_paper "2107.99999"
        (fun _ => FetchOutcome.response 404 (PdfBody.pdf ["some text"])) = "" ∧
      read_arxiv_paper "2107.99999"
        (fun _ => FetchOutcome.response 404 (PdfBody.pdf ["some text"])) = "" :=
  c2_read_fetch_failure_returns_empty "2107.99999"
    (fun _ => FetchOutcome.response 404 (PdfBody.pdf ["some text"]))
    (Or.inr ⟨404, PdfBody.pdf ["some text"], rfl, by decide, by decide⟩)

/-- The record the adapter builds from `sampleEntry`. -/
def samplePaper : Paper :=
  { paper_id := "2107.00001v1"
    title := "Sample Title"
    authors := ["Alice", "Bob"]
    abstract := "An abstract."
    url := "http://arxiv.org/abs/2107.00001v1"
    pdf_url := "http://arxiv.org/pdf/2107.00001v1"
    published_date := ⟨2021, 7, 1, 12, 0, 0⟩
    updated_date := ⟨2021, 7, 2, 8, 30, 0⟩
    source := "arxiv"
    categories := ["cs.LG"]
    keywords := []
    doi := "" }

/-- Sanity: the per-entry block parses `sampleEntry` to exactly `samplePaper`. -/
theorem parseEntry_sampleEntry : parseEntry sampleEntry = some samplePaper := rfl

/-- C3: a malformed entry anywhere in the feed is dropped with no effect on
the rest: the result equals the parse of the other entries in feed order
(and equals the result for the feed without the malformed entry), `search`
does not raise (it returns `Except.ok`), and every returned record is the
complete parse of some well-formed entry of the remaining feed — never a
partially constructed record. -/
theorem c3_malformed_entry_dropped (q : String) (k st : Nat)
    (l₁ l₂ : List Entry) (bad : Entry) (h : parseEntry bad = none) :
    ArxivSearcher.search q k (fun _ => Except.ok ⟨st, Body.feed (l₁ ++ bad :: l₂)⟩)
        = Except.ok (l₁.filterMap parseEntry ++ l₂.filterMap parseEntry) ∧
      ArxivSearcher.search q k (fun _ => Except.ok ⟨st, Body.feed (l₁ ++ bad :: l₂)⟩)
        = ArxivSearcher.search q k (fun _ => Except.ok ⟨st, Body.feed (l₁ ++ l₂)⟩) ∧
      ∀ p ∈ (l₁ ++ bad :: l₂).filterMap parseEntry,
        ∃ e, (e ∈ l₁ ∨ e ∈ l₂) ∧ parseEntry e = some p := by
  have hsplit : (l₁ ++ bad :: l₂).filterMap parseEntry
      = l₁.filterMap parseEntry ++ l₂.filterMap parseEntry := by
    rw [List.filterMap_append, List.filterMap_cons, h]
  refine ⟨?_, ?_, ?_⟩
  · rw [search_ok_feed, hsplit]
  · rw [search_ok_feed, search_ok_feed, hsplit, List.filterMap_append]
  · intro p hp
    rcases List.mem_filterMap.1 hp with ⟨e, he, hpe⟩
    rcases List.mem_append.1 he with he₁ | he₂
    · exact ⟨e, Or.inl he₁, hpe⟩
    · rcases List.mem_cons.1 he₂ with rfl | he₂
      · exact absurd hpe (by simp [h])
      · exact ⟨e, Or.inr he₂, hpe⟩

/-- C3 witness: a feed `[sampleEntry, badEntry]` whose second entry has an
unparsable `published` timestamp yields exactly the parse of `[sampleEntry]`. -/
theorem c3_malformed_entry_dropped_witness :
    ArxivSearcher.search "quantum computing" 10
        (fun _ => Except.ok ⟨200, Body.feed ([sampleEntry] ++ badEntry :: [])⟩)
        = Except.ok ([sampleEntry].filterMap parseEntry ++ List.filterMap parseEntry []) ∧
      ArxivSearcher.search "quantum computing" 10
        (fun _ => Except.ok ⟨200, Body.feed ([sampleEntry] ++ badEntry :: [])⟩)
        = ArxivSearcher.search "quantum computing" 10
            (fun _ => Except.ok ⟨200, Body.feed ([sampleEntry] ++ [])⟩) ∧
      ∀ p ∈ ([sampleEntry] ++ badEntry :: []).filterMap parseEntry,
        ∃ e, (e ∈ [sampleEntry] ∨ e ∈ ([] : List Entry)) ∧ parseEntry e = some p :=
  c3_malformed_entry_dropped "quantum computing" 10 200 [sampleEntry] [] badEntry
    (by decide)

/-- C8: every record produced by `search` has `source = "arxiv"` and an
empty `keywords` sequence. -/
theorem c8_source_arxiv_keywords_nil (q : String) (k : Nat)
    (net : QueryParams → Except NetError HttpResponse) (ps : List Paper)
    (h : ArxivSearcher.search q k net = Except.ok ps) :
    ∀ p ∈ ps, p.source = "arxiv" ∧ p.keywords = [] := by
  intro p hp
  unfold ArxivSearcher.search at h
  cases hnet : net (ArxivSearcher.searchParams q k) with
  | error e => rw [hnet] at h; cases h
  | ok resp =>
    rw [hnet] at h
    have hps : (feedparserParse resp.body).filterMap parseEntry = ps :=
      Except.ok.inj h
    rw [← hps] at hp
    rcases List.mem_filterMap.1 hp with ⟨e, _, hpe⟩
    rcases (parseEntry_eq_some e p).1 hpe with
      ⟨a, pb, ub, l, i, t, s, g, _, _, _, _, _, _, _, _, hpeq⟩
    rw [hpeq]
    exact ⟨rfl, rfl⟩

/-- C8 witness: the theorem applied to a one-entry feed, then to the record
it returns. -/
theorem c8_source_arxiv_keywords_nil_witness :
    samplePaper.source = "arxiv" ∧ samplePaper.keywords = [] :=
  c8_source_arxiv_keywords_nil "quantum computing" 10
    (fun _ => Except.ok ⟨200, Body.feed [sampleEntry]⟩) [samplePaper] rfl
    samplePaper (by simp)

/-- C7: for every well-formed entry, the record's `pdf_url` is the address
of the first link whose declared media type is `application/pdf`, and `""`
when no link has that type. -/
theorem c7_pdf_url_first_pdf_link (e : Entry) (p : Paper) (links : List Link)
    (hl : e.links = some links) (hp : parseEntry e = some p) :
    ((∀ l ∈ links, l.type ≠ "application/pdf") → p.pdf_url = "") ∧
      (∀ l₁ (l : Link) l₂, links = l₁ ++ l :: l₂ →
        l.type = "application/pdf" →
        (∀ l' ∈ l₁, l'.type ≠ "application/pdf") →
        p.pdf_url = l.href) := by
  rcases (parseEntry_eq_some e p).1 hp with
    ⟨a, pb, ub, links', i, t, s, g, _, _, _, hl', _, _, _, _, hpeq⟩
  have hll : links' = links := by
    rw [hl] at hl'
    exact (Option.some.inj hl').symm
  rw [hll] at hpeq
  constructor
  · intro hnone
    have : links.find? (fun l => l.type = "application/pdf") = none := by
      rw [List.find?_eq_none]
      intro l hls
      simpa using hnone l hls
    rw [hpeq]
    simp [this]
  · rintro l₁ l l₂ rfl hlt hfirst
    have h₁ : l₁.find? (fun l' => l'.type = "application/pdf") = none := by
      rw [List.find?_eq_none]
      intro l' hls
      simpa using hfirst l' hls
    have h₂ : (l :: l₂).find? (fun l' => l'.type = "application/pdf") = some l :=
      List.find?_cons_of_pos l₂ (by simpa using hlt)
    rw [hpeq]
    simp [List.find?_append, h₁, h₂]

/-- C7 witness: in `sampleEntry` the first (and only) `application/pdf`
link is the second one, and the record's `pdf_url` is its address. -/
theorem c7_pdf_url_first_pdf_link_witness :
    samplePaper.pdf_url = "http://arxiv.org/pdf/2107.00001v1" :=
  (c7_pdf_url_first_pdf_link sampleEntry samplePaper sampleLinks rfl
      parseEntry_sampleEntry).2
    [⟨"http://arxiv.org/abs/2107.00001v1", "text/html"⟩]
    ⟨"http://arxiv.org/pdf/2107.00001v1", "application/pdf"⟩ [] rfl rfl
    (by decide)

/-- C6 counterexample: `search` with `max_results = 1` against a feed of 2
entries (at least 1, as the claim allows) returns 2 records — the adapter
performs no local truncation, so the claimed bound fails when the remote
returns more entries than requested. -/
theorem c6_counterexample_no_local_truncation :
    (ArxivSearcher.search "q" 1
        (fun _ => Except.ok ⟨200, Body.feed [sampleEntry, sampleEntry]⟩)).map
      List.length = Except.ok 2 := rfl

/-- C6 (amended): `search` forwards `max_results = k` to the remote as a
query parameter and performs no truncation of its own, so the result has
length at most `k` exactly when the returned feed itself carries at most
`k` entries (as a remote honouring the parameter produces). -/
theorem c6_length_bounded_when_feed_bounded (q : String) (k st : Nat)
    (es : List Entry) (h : es.length ≤ k) :
    (ArxivSearcher.searchParams q k).max_results = k ∧
      ArxivSearcher.search q k (fun _ => Except.ok ⟨st, Body.feed es⟩)
        = Except.ok (es.filterMap parseEntry) ∧
      (es.filterMap parseEntry).length ≤ k :=
  ⟨rfl, search_ok_feed q k st es,
    le_trans (List.length_filterMap_le parseEntry es) h⟩

/-- C6 witness: the amended theorem at `max_results = 5` and a 2-entry feed. -/
theorem c6_length_bounded_when_feed_bounded_witness :
    (ArxivSearcher.searchParams "quantum computing" 5).max_results = 5 ∧
      ArxivSearcher.search "quantum computing" 5
          (fun _ => Except.ok ⟨200, Body.feed [sampleEntry, badEntry]⟩)
        = Except.ok ([sampleEntry, badEntry].filterMap parseEntry) ∧
      ([sampleEntry, badEntry].filterMap parseEntry).length ≤ 5 :=
  c6_length_bounded_when_feed_bounded "quantum computing" 5 200
    [sampleEntry, badEntry] (by decide)

/-- `split` never returns an empty list of segments. -/
theorem splitSlash_ne_nil (cs : List Char) : splitSlash cs ≠ [] := by
  cases cs with
  | nil => simp [splitSlash]
  | cons c cs =>
    unfold splitSlash
    cases splitSlash cs with
    | nil => simp
    | cons g gs => by_cases hc : c = '/' <;> simp [hc]

/-- If the input is non-empty and does not end in `'/'`, the last segment
of the split is non-empty. -/
theorem splitSlash_getLast_ne_nil (cs : List Char) (h1 : cs ≠ [])
    (h2 : cs.getLast? ≠ some '/') :
    ∃ g, (splitSlash cs).getLast? = some g ∧ g ≠ [] := by
  induction cs with
  | nil => exact absurd rfl h1
  | cons c cs ih =>
    cases cs with
    | nil =>
      have hc : c ≠ '/' := by simpa using h2
      refine ⟨[c], ?_, by simp⟩
      simp [splitSlash, hc]
    | cons c2 cs2 =>
      have h2' : (c2 :: cs2).getLast? ≠ some '/' := by
        rwa [List.getLast?_cons_cons] at h2
      obtain ⟨g0, hg0, hg0ne⟩ := ih (by simp) h2'
      unfold splitSlash
      cases hss : splitSlash (c2 :: cs2) with
      | nil => exact absurd hss (splitSlash_ne_nil _)
      | cons g gs =>
        rw [hss] at hg0
        by_cases hc : c = '/'
        · refine ⟨g0, ?_, hg0ne⟩
          show (if c = '/' then [] :: g :: gs else (c :: g) :: gs).getLast?
            = some g0
          rw [if_pos hc, List.getLast?_cons_cons]
          exact hg0
        · cases gs with
          | nil =>
            refine ⟨c :: g, ?_, by simp⟩
            show (if c = '/' then [[], g] else [c :: g]).getLast? = some (c :: g)
            rw [if_neg hc]
            simp
          | cons g1 gs1 =>
            refine ⟨g0, ?_, hg0ne⟩
            show (if c = '/' then [] :: g :: g1 :: gs1
                  else (c :: g) :: g1 :: gs1).getLast? = some g0
            rw [if_neg hc, List.getLast?_cons_cons]
            rwa [List.getLast?_cons_cons] at hg0

/-- A non-empty identifier that does not end in `'/'` has a non-empty last
path segment. -/
theorem lastSegment_ne_empty (s : String) (h1 : s ≠ "")
    (h2 : s.toList.getLast? ≠ some '/') : lastSegment s ≠ "" := by
  have h1' : s.toList ≠ [] := by
    intro hh
    exact h1 (String.ext hh)
  obtain ⟨g, hg, hgne⟩ := splitSlash_getLast_ne_nil s.toList h1' h2
  unfold lastSegment
  rw [List.getLastD_eq_getLast?, hg]
  intro hcon
  exact hgne (congrArg String.data hcon)

/-- On a feed whose entries are all well-formed, the parses line up with
the entries one to one, in order. -/
theorem filterMap_parseEntry_forall₂ (es : List Entry)
    (h : ∀ e ∈ es, (parseEntry e).isSome) :
    List.Forall₂ (fun e p => parseEntry e = some p) es (es.filterMap parseEntry) := by
  induction es with
  | nil => simp [List.filterMap_nil]
  | cons e es ih =>
    obtain ⟨p, hp⟩ := Option.isSome_iff_exists.1 (h e (by simp))
    rw [List.filterMap_cons, hp]
    exact List.Forall₂.cons hp (ih fun e' he' => h e' (by simp [he']))

/-- C4 counterexample: a feed entry whose identifier is the empty string is
well-formed (the per-entry block succeeds: the search result has exactly
one record), yet the record's `paper_id` is `""` — refuting the claim that
every well-formed entry yields a non-empty `paper_id`. -/
theorem c4_counterexample_empty_id_paper :
    (ArxivSearcher.search "q" 10
        (fun _ => Except.ok ⟨200, Body.feed [emptyIdEntry]⟩)).map
      (List.map Paper.paper_id) = Except.ok [""] := rfl

/-- C4 (amended): for every feed of `N` well-formed entries, `search`
returns exactly `N` records matched to the entries one to one in feed
order, each record's `paper_id` is the last path segment of the entry's
identifier, and it is non-empty whenever that identifier is non-empty and
does not end in `'/'` (as canonical arXiv identifier URIs are). -/
theorem c4_wellformed_feed_parses_in_order (q : String) (k st : Nat)
    (es : List Entry) (h : ∀ e ∈ es, (parseEntry e).isSome) :
    ArxivSearcher.search q k (fun _ => Except.ok ⟨st, Body.feed es⟩)
        = Except.ok (es.filterMap parseEntry) ∧
      (es.filterMap parseEntry).length = es.length ∧
      List.Forall₂ (fun e p => parseEntry e = some p) es (es.filterMap parseEntry) ∧
      ∀ p ∈ es.filterMap parseEntry, ∃ e ∈ es, ∃ id, e.id = some id ∧
        p.paper_id = lastSegment id ∧
        (id ≠ "" → id.toList.getLast? ≠ some '/' → p.paper_id ≠ "") := by
  have hf := filterMap_parseEntry_forall₂ es h
  refine ⟨search_ok_feed q k st es, hf.length_eq.symm, hf, ?_⟩
  intro p hp
  rcases List.mem_filterMap.1 hp with ⟨e, he, hpe⟩
  rcases (parseEntry_eq_some e p).1 hpe with
    ⟨a, pb, ub, l, i, t, s, g, _, _, _, _, hi, _, _, _, hpeq⟩
  refine ⟨e, he, i, hi, ?_, ?_⟩
  · rw [hpeq]
  · intro hne hsl
    rw [hpeq]
    exact lastSegment_ne_empty i hne hsl

/-- C4 witness: the amended theorem at a one-entry well-formed feed. -/
theorem c4_wellformed_feed_parses_in_order_witness :
    ArxivSearcher.search "quantum computing" 10
        (fun _ => Except.ok ⟨200, Body.feed [sampleEntry]⟩)
        = Except.ok ([sampleEntry].filterMap parseEntry) ∧
      ([sampleEntry].filterMap parseEntry).length = [sampleEntry].length ∧
      List.Forall₂ (fun e p => parseEntry e = some p) [sampleEntry]
        ([sampleEntry].filterMap parseEntry) ∧
      ∀ p ∈ [sampleEntry].filterMap parseEntry, ∃ e ∈ [sampleEntry],
        ∃ id, e.id = some id ∧ p.paper_id = lastSegment id ∧
          (id ≠ "" → id.toList.getLast? ≠ some '/' → p.paper_id ≠ "") :=
  c4_wellformed_feed_parses_in_order "quantum computing" 10 200 [sampleEntry]
    (by decide)
